import Mathlib

/-!
Verification of the synthetic-dataset generator
(`synthetic_data_utils/dataset_generator.py` with constants from
`synthetic_data_utils/defaults.py`).

The Python functions are shallowly embedded as executable Lean definitions:
machine integers become `Int`/`Nat`, the float threshold `MAX_ALLOWED_IOU`
becomes an exact rational, random draws (`random.randint`, `random.sample`,
`np.random.randint`) become explicit oracle arguments, and the unbounded
`while True:` synthesis loop becomes a fuel-indexed step function whose
`none` result means "still looping after that many iterations".
-/

attribute [local semireducible] Rat.mul Rat.add Rat.sub Rat.inv

namespace ObjDet

/-! ### Constants from `defaults.py` -/

def MAX_ATTEMPTS_TO_SYNTHESIZE : Nat := 40

def WIDTH : Int := 384

def HEIGHT : Int := 384

def MAX_ALLOWED_IOU : ℚ := 1 / 2

def MIN_WIDTH : Int := 6

def MIN_HEIGHT : Int := 6

/-! ### `Rectangle` and `overlap` (dataset_generator.py lines 24, 68-87) -/

/-- `Rectangle = namedtuple('Rectangle', 'xmin ymin xmax ymax')`. -/
structure Rectangle where
  xmin : Int
  ymin : Int
  xmax : Int
  ymax : Int
deriving DecidableEq

/-- Embedding of `overlap(a, b)`: `dx`/`dy` are the signed extents of the
intersection, `ioa1`/`ioa2` the `MAX_ALLOWED_IOU`-scaled areas, and the
result is `dx >= 0 and dy >= 0 and (dx*dy > ioa1 or dx*dy > ioa2)`. -/
def overlap (a b : Rectangle) : Bool :=
  let dx : Int := min a.xmax b.xmax - max a.xmin b.xmin
  let dy : Int := min a.ymax b.ymax - max a.ymin b.ymin
  let ioa1 : ℚ := MAX_ALLOWED_IOU * (((a.xmax - a.xmin) * (a.ymax - a.ymin) : Int) : ℚ)
  let ioa2 : ℚ := MAX_ALLOWED_IOU * (((b.xmax - b.xmin) * (b.ymax - b.ymin) : Int) : ℚ)
  decide (0 ≤ dx) && decide (0 ≤ dy) &&
    (decide (((dx * dy : Int) : ℚ) > ioa1) || decide (((dx * dy : Int) : ℚ) > ioa2))

/-- Spec-side definition: the area of a rectangle, as a rational. -/
def rectArea (r : Rectangle) : ℚ :=
  (((r.xmax - r.xmin) * (r.ymax - r.ymin) : Int) : ℚ)

/-- Spec-side definition: the geometric area of the intersection of two
axis-aligned rectangles (zero when they are disjoint). -/
def intersectionArea (a b : Rectangle) : ℚ :=
  max 0 ((min a.xmax b.xmax - max a.xmin b.xmin : Int) : ℚ) *
    max 0 ((min a.ymax b.ymax - max a.ymin b.ymin : Int) : ℚ)

/-- C1: for rectangles with `xmin ≤ xmax` and `ymin ≤ ymax`, `overlap a b`
is true iff the intersection area exceeds `MAX_ALLOWED_IOU` times the area
of `a` or of `b`; and the three concrete examples from the spec hold. -/
theorem overlap_iff_iou_exceeded :
    (∀ a b : Rectangle, a.xmin ≤ a.xmax → a.ymin ≤ a.ymax →
      b.xmin ≤ b.xmax → b.ymin ≤ b.ymax →
      (overlap a b = true ↔
        intersectionArea a b > MAX_ALLOWED_IOU * rectArea a ∨
        intersectionArea a b > MAX_ALLOWED_IOU * rectArea b)) ∧
    overlap ⟨0, 0, 10, 10⟩ ⟨0, 0, 10, 10⟩ = true ∧
    overlap ⟨0, 0, 10, 10⟩ ⟨20, 20, 30, 30⟩ = false ∧
    overlap ⟨0, 0, 10, 10⟩ ⟨9, 9, 19, 19⟩ = false := by
  refine ⟨?_, by decide, by decide, by decide⟩
  intro a b hax hay hbx hby
  have harea1 : (0 : ℚ) ≤ rectArea a := by
    have h1 : (0 : Int) ≤ (a.xmax - a.xmin) * (a.ymax - a.ymin) :=
      mul_nonneg (by omega) (by omega)
    unfold rectArea
    exact_mod_cast h1
  have harea2 : (0 : ℚ) ≤ rectArea b := by
    have h1 : (0 : Int) ≤ (b.xmax - b.xmin) * (b.ymax - b.ymin) :=
      mul_nonneg (by omega) (by omega)
    unfold rectArea
    exact_mod_cast h1
  have hioa1 : (0 : ℚ) ≤ MAX_ALLOWED_IOU * rectArea a := by
    have : (0 : ℚ) ≤ MAX_ALLOWED_IOU := by norm_num [MAX_ALLOWED_IOU]
    positivity
  have hioa2 : (0 : ℚ) ≤ MAX_ALLOWED_IOU * rectArea b := by
    have : (0 : ℚ) ≤ MAX_ALLOWED_IOU := by norm_num [MAX_ALLOWED_IOU]
    positivity
  simp only [overlap, intersectionArea, rectArea, Bool.and_eq_true, Bool.or_eq_true,
    decide_eq_true_eq] at *
  by_cases hdx : (0 : Int) ≤ min a.xmax b.xmax - max a.xmin b.xmin
  · by_cases hdy : (0 : Int) ≤ min a.ymax b.ymax - max a.ymin b.ymin
    · have hmx : max 0 ((min a.xmax b.xmax - max a.xmin b.xmin : Int) : ℚ)
          = ((min a.xmax b.xmax - max a.xmin b.xmin : Int) : ℚ) :=
        max_eq_right (by exact_mod_cast hdx)
      have hmy : max 0 ((min a.ymax b.ymax - max a.ymin b.ymin : Int) : ℚ)
          = ((min a.ymax b.ymax - max a.ymin b.ymin : Int) : ℚ) :=
        max_eq_right (by exact_mod_cast hdy)
      rw [hmx, hmy]
      constructor
      · rintro ⟨⟨-, -⟩, hgt⟩
        push_cast at hgt ⊢
        exact hgt
      · intro hgt
        refine ⟨⟨hdx, hdy⟩, ?_⟩
        push_cast at hgt ⊢
        exact hgt
    · have hlt : (min a.ymax b.ymax - max a.ymin b.ymin : Int) < 0 := by omega
      have hmy : max 0 ((min a.ymax b.ymax - max a.ymin b.ymin : Int) : ℚ) = 0 := by
        apply max_eq_left
        have : ((min a.ymax b.ymax - max a.ymin b.ymin : Int) : ℚ) < 0 := by
          exact_mod_cast hlt
        linarith
      rw [hmy, mul_zero]
      constructor
      · rintro ⟨⟨-, hdy'⟩, -⟩
        exact absurd hdy' hdy
      · rintro (h | h)
        · exact absurd h (not_lt.mpr hioa1)
        · exact absurd h (not_lt.mpr hioa2)
  · have hlt : (min a.xmax b.xmax - max a.xmin b.xmin : Int) < 0 := by omega
    have hmx : max 0 ((min a.xmax b.xmax - max a.xmin b.xmin : Int) : ℚ) = 0 := by
      apply max_eq_left
      have : ((min a.xmax b.xmax - max a.xmin b.xmin : Int) : ℚ) < 0 := by
        exact_mod_cast hlt
      linarith
    rw [hmx, zero_mul]
    constructor
    · rintro ⟨⟨hdx', -⟩, -⟩
      exact absurd hdx' hdx
    · rintro (h | h)
      · exact absurd h (not_lt.mpr hioa1)
      · exact absurd h (not_lt.mpr hioa2)

/-- Witness for C1: the iff instantiated at `a = (0,0,10,10)`,
`b = (9,9,19,19)` with all hypotheses discharged concretely. -/
theorem overlap_iff_iou_exceeded_witness :
    overlap ⟨0, 0, 10, 10⟩ ⟨9, 9, 19, 19⟩ = true ↔
      intersectionArea ⟨0, 0, 10, 10⟩ ⟨9, 9, 19, 19⟩ >
          MAX_ALLOWED_IOU * rectArea ⟨0, 0, 10, 10⟩ ∨
        intersectionArea ⟨0, 0, 10, 10⟩ ⟨9, 9, 19, 19⟩ >
          MAX_ALLOWED_IOU * rectArea ⟨9, 9, 19, 19⟩ :=
  overlap_iff_iou_exceeded.1 ⟨0, 0, 10, 10⟩ ⟨9, 9, 19, 19⟩
    (by decide) (by decide) (by decide) (by decide)

/-! ### `get_list_of_images` (dataset_generator.py lines 90-114)

The per-category body of the loop in `get_list_of_images`.  The two calls to
`random.sample` are modelled by oracle arguments `fill` and `sub`; a valid
output of `random.sample(pop, k)` is a length-`k` list drawn from `pop`
without replacement, i.e. a `List.Subperm` of `pop` of length `k`. -/

/-- One iteration of the `for obj_dir in objects` loop of
`get_list_of_images`: `num = len(img_list)`; if `num < N` the list is
repeated `int(N/num)` times and topped up by `random.sample` (oracle
`fill`); if `num > N` it is replaced by `random.sample(img_list, N)`
(oracle `sub`); otherwise it is kept as is. -/
def get_list_of_images_category (img_list : List String) (N : Nat)
    (fill sub : List String) : List String :=
  let num := img_list.length
  if num < N then
    (List.replicate (N / num) img_list).flatten ++ fill
  else if num > N then
    sub
  else
    img_list

/-- Length of the `int(N/num) * img_list` repetition. -/
theorem length_join_replicate (q : Nat) (l : List String) :
    ((List.replicate q l).flatten).length = q * l.length := by
  induction q with
  | zero => simp
  | succ n ih => simp [List.replicate_succ, ih, Nat.succ_mul, Nat.add_comm]

/-- C2: for a category with `0 < num < N` source images (sampling oracle
`fill` a valid `random.sample` of the repeated list, of the size the code
requests), the produced list has exactly `N` entries and contains every
original image; for a category with `num > N` images (oracle `sub` a valid
`random.sample(img_list, N)`) it has exactly `N` entries, all drawn from the
original list, without duplicates when the originals are distinct. -/
theorem get_list_of_images_category_spec :
    ∀ (img_list : List String) (N : Nat) (fill sub : List String),
    (0 < img_list.length → img_list.length < N →
      List.Subperm fill (List.replicate (N / img_list.length) img_list).flatten →
      fill.length = N - (N / img_list.length) * img_list.length →
      (get_list_of_images_category img_list N fill sub).length = N ∧
      ∀ x ∈ img_list, x ∈ get_list_of_images_category img_list N fill sub) ∧
    (N < img_list.length → List.Subperm sub img_list → sub.length = N →
      img_list.Nodup →
      (get_list_of_images_category img_list N fill sub).length = N ∧
      (∀ x ∈ get_list_of_images_category img_list N fill sub, x ∈ img_list) ∧
      (get_list_of_images_category img_list N fill sub).Nodup) := by
  intro img_list N fill sub
  constructor
  · intro hpos hlt hfillsub hfilllen
    have hbranch : get_list_of_images_category img_list N fill sub
        = (List.replicate (N / img_list.length) img_list).flatten ++ fill := by
      simp [get_list_of_images_category, hlt]
    have hq1 : 1 ≤ N / img_list.length :=
      (Nat.one_le_div_iff hpos).mpr (Nat.le_of_lt hlt)
    have hmul : (N / img_list.length) * img_list.length ≤ N :=
      Nat.div_mul_le_self N img_list.length
    constructor
    · rw [hbranch, List.length_append, length_join_replicate, hfilllen]
      omega
    · intro x hx
      rw [hbranch]
      apply List.mem_append_left
      rw [List.mem_flatten]
      exact ⟨img_list, List.mem_replicate.mpr ⟨by omega, rfl⟩, hx⟩
  · intro hgt hsubsub hsublen hnodup
    have hbranch : get_list_of_images_category img_list N fill sub = sub := by
      have h1 : ¬ (img_list.length < N) := by omega
      simp [get_list_of_images_category, h1, hgt]
    refine ⟨by rw [hbranch]; exact hsublen, ?_, ?_⟩
    · intro x hx
      rw [hbranch] at hx
      exact hsubsub.subset hx
    · rw [hbranch]
      obtain ⟨l, hperm, hsl⟩ := hsubsub
      exact hperm.nodup (hnodup.sublist hsl)

/-- Witness for C2: a category `["a","b","c"]` with `N = 5` (fill sample
`["a","b"]`) yields a 5-element list containing `"c"`; with `N = 2`
(subset sample `["a","c"]`) it yields a 2-element duplicate-free list. -/
theorem get_list_of_images_category_spec_witness :
    ((get_list_of_images_category ["a", "b", "c"] 5 ["a", "b"] []).length = 5 ∧
      "c" ∈ get_list_of_images_category ["a", "b", "c"] 5 ["a", "b"] []) ∧
    ((get_list_of_images_category ["a", "b", "c"] 2 [] ["a", "c"]).length = 2 ∧
      (get_list_of_images_category ["a", "b", "c"] 2 [] ["a", "c"]).Nodup) := by
  have h1 := (get_list_of_images_category_spec ["a", "b", "c"] 5 ["a", "b"] []).1
    (by decide) (by decide) (by decide) (by decide)
  have h2 := (get_list_of_images_category_spec ["a", "b", "c"] 2 [] ["a", "c"]).2
    (by decide) (by decide) (by decide) (by decide)
  exact ⟨⟨h1.1, h1.2 "c" (by decide)⟩, ⟨h2.1, h2.2.2⟩⟩

/-! ### `get_annotation_from_mask` (dataset_generator.py lines 177-192)

The mask is a 2-D array of pixel values, modelled as a list of rows.
`np.any(mask, axis=1)` / `np.where` become index filters. -/

/-- `np.where(np.any(mask, axis=1))[0]`: indices of rows with a non-zero
entry, in increasing order. -/
def rowIndices (mask : List (List Nat)) : List Nat :=
  (List.range mask.length).filter fun i => (mask.getD i []).any fun v => v != 0

/-- Number of columns of the (rectangular) mask array. -/
def maskWidth (mask : List (List Nat)) : Nat := (mask.headD []).length

/-- `np.where(np.any(mask, axis=0))[0]`: indices of columns with a non-zero
entry, in increasing order. -/
def colIndices (mask : List (List Nat)) : List Nat :=
  (List.range (maskWidth mask)).filter fun j => mask.any fun row => row.getD j 0 != 0

/-- Embedding of `get_annotation_from_mask(mask)`: returns
`(xmin, xmax, ymin, ymax)` from the first/last non-zero rows and columns,
or the sentinel `(-1, -1, -1, -1)` when no row is non-zero. -/
def get_annotation_from_mask (mask : List (List Nat)) : Int × Int × Int × Int :=
  let rows := rowIndices mask
  let cols := colIndices mask
  if rows.isEmpty then
    (-1, -1, -1, -1)
  else
    ((cols.headD 0 : Nat), (cols.getLastD 0 : Nat), (rows.headD 0 : Nat), (rows.getLastD 0 : Nat))

/-- Filtering `range n` by a predicate that holds exactly at `r < n` yields
`[r]`. -/
theorem filter_range_eq_single (n r : Nat) (p : Nat → Bool) (hr : r < n)
    (hp : ∀ i, i < n → (p i = true ↔ i = r)) :
    (List.range n).filter p = [r] := by
  induction n with
  | zero => omega
  | succ m ih =>
    rw [List.range_succ, List.filter_append]
    by_cases hrm : r = m
    · subst hrm
      have hnone : (List.range r).filter p = [] := by
        rw [List.filter_eq_nil_iff]
        intro a ha
        have haR : a < r := List.mem_range.mp ha
        intro hpa
        have := (hp a (by omega)).mp hpa
        omega
      have hpm : p r = true := (hp r (by omega)).mpr rfl
      simp [hnone, hpm]
    · have hrm' : r < m := by omega
      have hih : (List.range m).filter p = [r] :=
        ih hrm' (fun i hi => hp i (by omega))
      have hpm : p m = false := by
        by_cases h : p m = true
        · exact absurd ((hp m (by omega)).mp h) (by omega)
        · simpa using h
      simp [hih, hpm]

/-- Helper: `getD` on an all-zero row is zero at any index. -/
theorem getD_eq_zero_of_all_zero (row : List Nat) (j : Nat)
    (h : ∀ v ∈ row, v = 0) : row.getD j 0 = 0 := by
  by_cases hj : j < row.length
  · have hmem : row.getD j 0 ∈ row := by
      rw [List.getD_eq_getElem _ _ hj]
      exact List.getElem_mem hj
    exact h _ hmem
  · rw [List.getD_eq_default _ _ (by omega)]

/-- C8: `get_annotation_from_mask` returns the sentinel `(-1,-1,-1,-1)` for
an all-zero mask, and `(c, c, r, r)` for a rectangular mask whose only
non-zero pixel sits at row `r`, column `c`. -/
theorem get_annotation_from_mask_spec :
    (∀ mask : List (List Nat), (∀ row ∈ mask, ∀ v ∈ row, v = 0) →
      get_annotation_from_mask mask = (-1, -1, -1, -1)) ∧
    (∀ (mask : List (List Nat)) (r c : Nat),
      (∀ row ∈ mask, row.length = maskWidth mask) →
      r < mask.length → c < maskWidth mask →
      (mask.getD r []).getD c 0 ≠ 0 →
      (∀ i, i < mask.length → i ≠ r → ∀ v ∈ mask.getD i [], v = 0) →
      (∀ j, j < maskWidth mask → j ≠ c → (mask.getD r []).getD j 0 = 0) →
      get_annotation_from_mask mask = ((c : Int), (c : Int), (r : Int), (r : Int))) := by
  constructor
  · intro mask hzero
    have hrows : rowIndices mask = [] := by
      rw [rowIndices, List.filter_eq_nil_iff]
      intro i hi
      simp only [List.any_eq_true, bne_iff_ne, ne_eq, not_exists, not_and, not_not]
      intro v hv
      have hlen : i < mask.length := List.mem_range.mp hi
      have hmem : mask.getD i [] ∈ mask := by
        rw [List.getD_eq_getElem _ _ hlen]
        exact List.getElem_mem hlen
      exact hzero _ hmem v hv
    rw [get_annotation_from_mask, hrows]
    rfl
  · intro mask r c hrect hr hc hnz hrows0 hrowc0
    have hrmem : mask.getD r [] ∈ mask := by
      rw [List.getD_eq_getElem _ _ hr]
      exact List.getElem_mem hr
    have hrlen : (mask.getD r []).length = maskWidth mask := hrect _ hrmem
    have hrows : rowIndices mask = [r] := by
      rw [rowIndices]
      apply filter_range_eq_single _ _ _ hr
      intro i hi
      constructor
      · intro hany
        by_contra hir
        obtain ⟨v, hv, hvne⟩ := List.any_eq_true.mp hany
        have := hrows0 i hi hir v hv
        simp [this] at hvne
      · intro hieq
        rw [hieq]
        by_contra hany
        have hall : ∀ v ∈ mask.getD r [], v = 0 := by
          intro v hv
          by_contra hvne
          exact hany (List.any_eq_true.mpr ⟨v, hv, by simpa using hvne⟩)
        exact hnz (getD_eq_zero_of_all_zero _ _ hall)
    have hcols : colIndices mask = [c] := by
      rw [colIndices]
      apply filter_range_eq_single _ _ _ hc
      intro j hj
      constructor
      · intro hany
        by_contra hjc
        obtain ⟨row, hrow, hrownz⟩ := List.any_eq_true.mp hany
        obtain ⟨i, hi, hrowi⟩ := List.mem_iff_getElem.mp hrow
        have hval : row.getD j 0 = 0 := by
          rw [← hrowi, ← List.getD_eq_getElem mask [] hi]
          by_cases hir : i = r
          · rw [hir]
            exact hrowc0 j hj hjc
          · exact getD_eq_zero_of_all_zero _ _ (hrows0 i hi hir)
        rw [List.getD_eq_getElem?_getD] at hval
        simp [hval] at hrownz
      · intro hjeq
        rw [hjeq]
        apply List.any_eq_true.mpr
        exact ⟨mask.getD r [], hrmem, by simpa using hnz⟩
    rw [get_annotation_from_mask, hrows, hcols]
    rfl

/-- Witness for C8: the all-zero mask `[[0,0]]` yields the sentinel, and the
mask `[[0,0],[0,5]]` with its single non-zero pixel at row 1, column 1
yields `(1, 1, 1, 1)`. -/
theorem get_annotation_from_mask_spec_witness :
    get_annotation_from_mask [[0, 0]] = (-1, -1, -1, -1) ∧
    get_annotation_from_mask [[0, 0], [0, 5]] = (1, 1, 1, 1) := by
  constructor
  · exact get_annotation_from_mask_spec.1 [[0, 0]] (by decide)
  · exact get_annotation_from_mask_spec.2 [[0, 0], [0, 5]] 1 1 (by decide)
      (by decide) (by decide) (by decide) (by decide) (by decide)

/-! ### `create_image_anno` (dataset_generator.py lines 329-550)

Control-flow model of the synthesis routine.  Image pixels and blending are
not needed by any claim and are not modelled; what is modelled faithfully
is: the `'none' not in img_file` guard (line 350), the
`os.path.exists(anno_file)` guard (line 354), the outer `while True:` loop
(lines 359-542) with its `except: continue` on background open failure
(lines 361-364) and its `if attempt == MAX_ATTEMPTS_TO_SYNTHESIZE: continue`
retry test (lines 539-542), the per-object loop (lines 400-538) with its
skip conditions collapsed into an `ObjOutcome`, the placement-search loop
(lines 441-463), `already_syn` bookkeeping (lines 464-465), and the clamped
per-object entry appended to the `top` XML element (lines 522-538). -/

/-- An object that survived the open/degenerate-mask checks of the object
loop: its label (`obj[1]`), its local mask bounding box
`(xmin, xmax, ymin, ymax)` as recomputed on line 440, and the stream of
`random.randint` placement offsets `(x, y)` the search will draw. -/
structure PlacedObj where
  label : String
  xmin : Int
  xmax : Int
  ymin : Int
  ymax : Int
  cands : List (Int × Int)
deriving DecidableEq

/-- Per-object outcome of the `try`/mask checks at lines 401-408: `skipped`
models `continue` (open failure, sentinel mask, or box below
`MIN_WIDTH`/`MIN_HEIGHT`); `placed` carries the surviving object. -/
inductive ObjOutcome where
  | skipped
  | placed (o : PlacedObj)
deriving DecidableEq

/-- The placement-search loop (lines 441-463): draws candidate offsets in
turn (`attempt += 1` per draw); with `dontocclude`, a draw is accepted when
it overlaps no `already_syn` entry (`prev` entries are stored as
`[x+xmin, x+xmax, y+ymin, y+ymax]` and read back as
`Rectangle(prev[0], prev[2], prev[1], prev[3])`); the loop also stops once
`attempt == MAX_ATTEMPTS_TO_SYNTHESIZE`.  Returns the final attempt count
and the last drawn offset. -/
def placeSearch (dontocclude : Bool) (already_syn : List (Int × Int × Int × Int))
    (xmin xmax ymin ymax : Int) : List (Int × Int) → Nat → Nat × (Int × Int)
  | [], attempt => (attempt, (0, 0))
  | (x, y) :: rest, attempt =>
    let att := attempt + 1
    if dontocclude then
      let found := already_syn.all fun p =>
        ! overlap ⟨p.1, p.2.2.1, p.2.1, p.2.2.2⟩
            ⟨x + xmin, y + ymin, x + xmax, y + ymax⟩
      if found then (att, (x, y))
      else if att = MAX_ATTEMPTS_TO_SYNTHESIZE then (att, (x, y))
      else placeSearch dontocclude already_syn xmin xmax ymin ymax rest att
    else (att, (x, y))

/-- One recorded object entry of the XML tree `top` (lines 524-538): name,
clamped bounding box, difficulty flag. -/
structure AnnoEntry where
  name : String
  xmin : Int
  xmax : Int
  ymin : Int
  ymax : Int
  difficult : Int
deriving DecidableEq

/-- The clamped entry written at lines 529-536:
`max(1, x+xmin), min(w, x+xmax), max(1, y+ymin), min(h, y+ymax)`. -/
def clampEntry (w h : Int) (name : String) (x y xmin xmax ymin ymax : Int) : AnnoEntry :=
  ⟨name, max 1 (x + xmin), min w (x + xmax), max 1 (y + ymin), min h (y + ymax), 0⟩

/-- The `for idx, obj in enumerate(all_objects)` loop (lines 400-538):
skipped objects leave `attempt` untouched; placed objects run the placement
search with the counter reset to 0 (line 441), extend `already_syn` when
`dontocclude` (line 465), and append a clamped entry unless
`idx >= len(objects)` (lines 522-536).  Returns the final value of
`attempt` and the accumulated entries. -/
def objLoop (dontocclude : Bool) (w h : Int) (numObjects : Nat) :
    List ObjOutcome → Nat → Nat → List (Int × Int × Int × Int) →
    List AnnoEntry → Nat × List AnnoEntry
  | [], _, attempt, _, anno => (attempt, anno)
  | .skipped :: rest, idx, attempt, already_syn, anno =>
    objLoop dontocclude w h numObjects rest (idx + 1) attempt already_syn anno
  | .placed o :: rest, idx, attempt, already_syn, anno =>
    let r := placeSearch dontocclude already_syn o.xmin o.xmax o.ymin o.ymax o.cands 0
    let x := r.2.1
    let y := r.2.2
    let already' :=
      if dontocclude then
        already_syn ++ [(x + o.xmin, x + o.xmax, y + o.ymin, y + o.ymax)]
      else already_syn
    let anno' :=
      if numObjects ≤ idx then anno
      else anno ++ [clampEntry w h o.label x y o.xmin o.xmax o.ymin o.ymax]
    objLoop dontocclude w h numObjects rest (idx + 1) r.1 already' anno'

/-- The per-call environment of `create_image_anno`: the fixed `bg_file`
argument, the outcome of `Image.open` on a path (a pure function of the
path), and the per-outer-iteration object outcomes (index `i` is the
iteration number, absorbing all randomness of that iteration). -/
structure SynthInput where
  bg_file : String
  openBg : String → Bool
  objStream : Nat → List ObjOutcome

/-- The outer `while True:` loop (lines 359-542), fuel-indexed: `none`
means the loop is still running after `fuel` iterations.  A failed
`Image.open(bg_file)` triggers `continue` (same `bg_file`, `attempt`
untouched); otherwise the object loop runs (fresh `top` and `already_syn`)
and the iteration repeats when the final `attempt` equals
`MAX_ATTEMPTS_TO_SYNTHESIZE`, else the entries are returned. -/
def createLoop (dontocclude : Bool) (w h : Int) (numObjects : Nat)
    (inp : SynthInput) : Nat → Nat → Nat → Option (List AnnoEntry)
  | 0, _, _ => none
  | fuel + 1, i, attempt =>
    if inp.openBg inp.bg_file then
      let r := objLoop dontocclude w h numObjects (inp.objStream i) 0 attempt [] []
      if r.1 = MAX_ATTEMPTS_TO_SYNTHESIZE then
        createLoop dontocclude w h numObjects inp fuel (i + 1) r.1
      else some r.2
    else
      createLoop dontocclude w h numObjects inp fuel (i + 1) attempt

/-- Checks whether `pat` occurs as a contiguous run at the start of `s`. -/
def charsHavePre : List Char → List Char → Bool
  | _, [] => true
  | [], _ :: _ => false
  | c :: cs, p :: ps => c = p && charsHavePre cs ps

/-- Checks whether `pat` occurs as a substring of `s`. -/
def charsHaveSub : List Char → List Char → Bool
  | [], pat => charsHavePre [] pat
  | c :: cs, pat => charsHavePre (c :: cs) pat || charsHaveSub cs pat

/-- Python's `pat in s` substring test. -/
def containsTok (s pat : String) : Bool := charsHaveSub s.data pat.data

/-- Result of one call of `create_image_anno`: `noStyleToken` is the bare
`return` at line 351, `existingAnno` the `return anno_file` at line 355,
`produced` the files written at lines 543-550 (one image per blending
style, named by `img_file.replace('none', style)`, plus the annotation
entries), `running` means the outer loop has not terminated within the
observed fuel. -/
inductive SynthResult where
  | noStyleToken
  | existingAnno (f : String)
  | produced (imgs : List String) (annoFile : String) (entries : List AnnoEntry)
  | running
deriving DecidableEq

/-- Embedding of `create_image_anno` (lines 329-550): the `'none'` guard,
the existing-annotation guard, then the outer synthesis loop; on loop exit
each blending style saves `img_file.replace('none', style)`. -/
def create_image_anno (numObjects : Nat) (img_file anno_file : String)
    (annoFileExists : Bool) (inp : SynthInput) (w h : Int)
    (blending_list : List String) (dontocclude : Bool) (fuel : Nat) :
    SynthResult :=
  if !(containsTok img_file "none") then .noStyleToken
  else if annoFileExists then .existingAnno anno_file
  else
    match createLoop dontocclude w h numObjects inp fuel 0 0 with
    | none => .running
    | some entries =>
      .produced (blending_list.map fun b => img_file.replace "none" b)
        anno_file entries

/-! ### Theorems about the object loop and annotation entries -/

/-- Spec-side definition: the labels of the placed objects whose index in
the combined list is below `len(objects)`, i.e. the foreground objects that
survive the skip checks, in order. -/
def placedLabels (numObjects : Nat) : List ObjOutcome → Nat → List String
  | [], _ => []
  | .skipped :: rest, idx => placedLabels numObjects rest (idx + 1)
  | .placed o :: rest, idx =>
    (if numObjects ≤ idx then [] else [o.label]) ++
      placedLabels numObjects rest (idx + 1)

/-- C7: the entry list built by the object loop consists of exactly one
entry per successfully placed foreground object, carrying that object's
label, in placement order; objects in the distractor suffix
(`idx >= len(objects)`) contribute no entry. -/
theorem objLoop_records_foreground_only (dontocclude : Bool) (w h : Int)
    (numObjects : Nat) (objs : List ObjOutcome) (idx attempt : Nat)
    (already_syn : List (Int × Int × Int × Int)) (anno : List AnnoEntry) :
    ((objLoop dontocclude w h numObjects objs idx attempt already_syn anno).2).map
        (fun e => e.name)
      = anno.map (fun e => e.name) ++ placedLabels numObjects objs idx := by
  induction objs generalizing idx attempt already_syn anno with
  | nil => simp [objLoop, placedLabels]
  | cons head rest ih =>
    cases head with
    | skipped =>
      rw [objLoop, placedLabels, ih]
    | placed o =>
      rw [objLoop, placedLabels, ih]
      by_cases hidx : numObjects ≤ idx
      · simp [hidx]
      · simp [hidx, clampEntry]

/-- C4 (amended): whenever the placed box is non-degenerate
(`xmin ≤ xmax`, `ymin ≤ ymax`), the canvas is non-trivial (`1 ≤ w`,
`1 ≤ h`) and the placed box meets the canvas
(`x+xmin ≤ w`, `1 ≤ x+xmax`, `y+ymin ≤ h`, `1 ≤ y+ymax`), the clamped
entry written to the annotation record lies within `[1, w] × [1, h]` and
is non-degenerate. -/
theorem clampEntry_in_canvas (w h : Int) (name : String)
    (x y xmin xmax ymin ymax : Int)
    (hw : 1 ≤ w) (hh : 1 ≤ h) (hx : xmin ≤ xmax) (hy : ymin ≤ ymax)
    (hxl : x + xmin ≤ w) (hxr : 1 ≤ x + xmax)
    (hyl : y + ymin ≤ h) (hyr : 1 ≤ y + ymax) :
    1 ≤ (clampEntry w h name x y xmin xmax ymin ymax).xmin ∧
    (clampEntry w h name x y xmin xmax ymin ymax).xmin ≤ w ∧
    1 ≤ (clampEntry w h name x y xmin xmax ymin ymax).xmax ∧
    (clampEntry w h name x y xmin xmax ymin ymax).xmax ≤ w ∧
    1 ≤ (clampEntry w h name x y xmin xmax ymin ymax).ymin ∧
    (clampEntry w h name x y xmin xmax ymin ymax).ymin ≤ h ∧
    1 ≤ (clampEntry w h name x y xmin xmax ymin ymax).ymax ∧
    (clampEntry w h name x y xmin xmax ymin ymax).ymax ≤ h ∧
    (clampEntry w h name x y xmin xmax ymin ymax).xmin ≤
      (clampEntry w h name x y xmin xmax ymin ymax).xmax ∧
    (clampEntry w h name x y xmin xmax ymin ymax).ymin ≤
      (clampEntry w h name x y xmin xmax ymin ymax).ymax := by
  simp only [clampEntry]
  omega

/-- Witness for C4 (amended): the bounds at a concrete in-canvas
placement. -/
theorem clampEntry_in_canvas_witness :
    1 ≤ (clampEntry WIDTH HEIGHT "obj" (-3) 380 0 10 0 10).xmin ∧
    (clampEntry WIDTH HEIGHT "obj" (-3) 380 0 10 0 10).xmax ≤ WIDTH ∧
    (clampEntry WIDTH HEIGHT "obj" (-3) 380 0 10 0 10).ymin ≤
      (clampEntry WIDTH HEIGHT "obj" (-3) 380 0 10 0 10).ymax := by
  have h := clampEntry_in_canvas WIDTH HEIGHT "obj" (-3) 380 0 10 0 10
    (by decide) (by decide) (by decide) (by decide)
    (by decide) (by decide) (by decide) (by decide)
  exact ⟨h.1, h.2.2.2.1, h.2.2.2.2.2.2.2.2.2⟩

/-- Counterexample for C4 as stated: for the off-canvas offset
`x = 1000` with local box `(0, 10, 0, 10)` on the default 384×384 canvas,
the recorded `xmin` is `max(1, 1000) = 1000 > 384` and exceeds the
recorded `xmax`, so the written box is neither within `[1, w]` nor
non-degenerate. -/
theorem clampEntry_off_canvas_cex :
    ¬ ((clampEntry WIDTH HEIGHT "obj" 1000 0 0 10 0 10).xmin ≤ WIDTH ∧
       (clampEntry WIDTH HEIGHT "obj" 1000 0 0 10 0 10).xmin ≤
         (clampEntry WIDTH HEIGHT "obj" 1000 0 0 10 0 10).xmax) := by
  decide

/-! ### Theorems about the outer synthesis loop -/

/-- A synthesis environment whose background always opens and whose object
list is empty: the loop finishes on its first iteration. -/
def trivialInput : SynthInput :=
  ⟨"bg.jpg", fun _ => true, fun _ => []⟩

/-- A synthesis environment whose background never opens. -/
def failBgInput : SynthInput :=
  ⟨"bg.jpg", fun _ => false, fun _ => []⟩

/-- Two identical foreground objects stacked at the same spot: the second
object's placement search overlaps the first at every candidate offset, so
every outer iteration ends with `attempt = MAX_ATTEMPTS_TO_SYNTHESIZE`. -/
def overlapObjA : PlacedObj := ⟨"obj", 0, 10, 0, 10, [(0, 0)]⟩

/-- Companion of `overlapObjA` with a full budget of identical candidate
offsets. -/
def overlapObjB : PlacedObj :=
  ⟨"obj", 0, 10, 0, 10, List.replicate MAX_ATTEMPTS_TO_SYNTHESIZE (0, 0)⟩

/-- Environment in which every outer iteration exhausts the placement
budget on its second object. -/
def alwaysOverlapInput : SynthInput :=
  ⟨"bg.jpg", fun _ => true, fun _ => [.placed overlapObjA, .placed overlapObjB]⟩

/-- One outer iteration of `alwaysOverlapInput` always ends with
`attempt = MAX_ATTEMPTS_TO_SYNTHESIZE` and therefore retries. -/
theorem alwaysOverlap_step (m i attempt : Nat) :
    createLoop true WIDTH HEIGHT 2 alwaysOverlapInput (m + 1) i attempt
      = createLoop true WIDTH HEIGHT 2 alwaysOverlapInput m (i + 1)
          MAX_ATTEMPTS_TO_SYNTHESIZE := rfl

/-- Under `alwaysOverlapInput` the outer loop never terminates, whatever
fuel it is given. -/
theorem alwaysOverlap_never_terminates (fuel i attempt : Nat) :
    createLoop true WIDTH HEIGHT 2 alwaysOverlapInput fuel i attempt = none := by
  induction fuel generalizing i attempt with
  | zero => rfl
  | succ m ih => rw [alwaysOverlap_step]; exact ih _ _

/-- C3 (amended): when the background opens, an outer iteration retries
from scratch exactly when the object loop's final `attempt` counter equals
`MAX_ATTEMPTS_TO_SYNTHESIZE`, and otherwise emits the accumulated entries;
the retry is unbounded — under an environment whose placements always
exhaust the budget the loop never terminates, for any amount of fuel. -/
theorem createLoop_retry_behavior :
    (∀ (dontocclude : Bool) (w h : Int) (numObjects : Nat) (inp : SynthInput)
      (fuel i attempt : Nat),
      inp.openBg inp.bg_file = true →
      createLoop dontocclude w h numObjects inp (fuel + 1) i attempt
        = (if (objLoop dontocclude w h numObjects (inp.objStream i) 0 attempt
                [] []).1 = MAX_ATTEMPTS_TO_SYNTHESIZE
           then createLoop dontocclude w h numObjects inp fuel (i + 1)
                  (objLoop dontocclude w h numObjects (inp.objStream i) 0 attempt
                    [] []).1
           else some (objLoop dontocclude w h numObjects (inp.objStream i) 0
                  attempt [] []).2)) ∧
    (∀ fuel i attempt : Nat,
      createLoop true WIDTH HEIGHT 2 alwaysOverlapInput fuel i attempt = none) := by
  constructor
  · intro dontocclude w h numObjects inp fuel i attempt hopen
    rw [createLoop, hopen]
    simp
  · exact alwaysOverlap_never_terminates

/-- Witness for C3 (amended): with an always-opening background and no
objects, one iteration suffices and the loop emits the empty entry list. -/
theorem createLoop_retry_behavior_witness :
    createLoop false WIDTH HEIGHT 0 trivialInput 1 0 0 = some [] := by
  have h := createLoop_retry_behavior.1 false WIDTH HEIGHT 0 trivialInput 0 0 0 rfl
  simpa using h

/-- Counterexample for C3 as stated: the whole-image retry is not bounded
by the attempt budget — after `MAX_ATTEMPTS_TO_SYNTHESIZE + 1` whole-image
iterations under an environment whose placement search always exhausts the
budget, no image has been emitted (the loop is still running), whereas the
claim promises emission after `MAX_ATTEMPTS_TO_SYNTHESIZE` retries. -/
theorem createLoop_retry_unbounded_cex :
    createLoop true WIDTH HEIGHT 2 alwaysOverlapInput
      (MAX_ATTEMPTS_TO_SYNTHESIZE + 1) 0 0 = none :=
  alwaysOverlap_never_terminates _ _ _

/-- C5 (amended): a background open failure is non-fatal for the
iteration — the loop silently `continue`s — but it retries `Image.open`
on the same unchanged `bg_file`, so when that file cannot be opened the
loop never terminates and `create_image_anno` never returns, for any
amount of fuel; the failure is never escalated, not even after the
attempt budget's worth of iterations. -/
theorem createLoop_bg_failure_loops_forever :
    (∀ (dontocclude : Bool) (w h : Int) (numObjects : Nat) (inp : SynthInput),
      inp.openBg inp.bg_file = false →
      ∀ fuel i attempt : Nat,
        createLoop dontocclude w h numObjects inp fuel i attempt = none) ∧
    (∀ (dontocclude : Bool) (w h : Int) (numObjects : Nat) (inp : SynthInput)
      (img_file anno_file : String) (blending_list : List String) (fuel : Nat),
      containsTok img_file "none" = true →
      inp.openBg inp.bg_file = false →
      create_image_anno numObjects img_file anno_file false inp w h
        blending_list dontocclude fuel = .running) := by
  have hloop : ∀ (dontocclude : Bool) (w h : Int) (numObjects : Nat)
      (inp : SynthInput), inp.openBg inp.bg_file = false →
      ∀ fuel i attempt : Nat,
        createLoop dontocclude w h numObjects inp fuel i attempt = none := by
    intro dontocclude w h numObjects inp hfail fuel
    induction fuel with
    | zero => intro i attempt; rfl
    | succ m ih =>
      intro i attempt
      rw [createLoop, hfail]
      exact ih _ _
  refine ⟨hloop, ?_⟩
  intro dontocclude w h numObjects inp img_file anno_file blending_list fuel
    htok hfail
  rw [create_image_anno, htok]
  simp only [Bool.not_true, Bool.false_eq_true, if_false, if_neg Bool.false_ne_true]
  rw [hloop dontocclude w h numObjects inp hfail fuel 0 0]

/-- Witness for C5 (amended): with `failBgInput` the loop yields nothing
even after the budget's worth of iterations, and the call is still
running. -/
theorem createLoop_bg_failure_loops_forever_witness :
    createLoop false WIDTH HEIGHT 0 failBgInput 3 0 0 = none ∧
    create_image_anno 0 "1_none.jpg" "1.xml" false failBgInput WIDTH HEIGHT
      ["none"] false 3 = .running := by
  constructor
  · exact createLoop_bg_failure_loops_forever.1 false WIDTH HEIGHT 0 failBgInput
      rfl 3 0 0
  · exact createLoop_bg_failure_loops_forever.2 false WIDTH HEIGHT 0 failBgInput
      "1_none.jpg" "1.xml" ["none"] 3 (by decide) rfl

/-- Counterexample for C5 as stated: after exhausting the attempt budget's
worth of outer iterations with a failing background, the call has not
escalated the failure nor produced anything — it is still running (and the
model's recursive call passes the same `bg_file`, never a fresh one). -/
theorem createLoop_bg_failure_cex :
    create_image_anno 0 "1_none.jpg" "1.xml" false failBgInput WIDTH HEIGHT
      ["none"] false (MAX_ATTEMPTS_TO_SYNTHESIZE + 1) = .running := by
  decide

/-- C9: a call of `create_image_anno` whose `img_file` does not contain
the substring `'none'` returns immediately with no synthesis and no
output; and the single `'none'` work item, when its loop finishes, writes
one image per blending style, named `img_file.replace('none', style)`. -/
theorem create_image_anno_none_guard :
    (∀ (numObjects : Nat) (img_file anno_file : String)
      (annoFileExists : Bool) (inp : SynthInput) (w h : Int)
      (blending_list : List String) (dontocclude : Bool) (fuel : Nat),
      containsTok img_file "none" = false →
      create_image_anno numObjects img_file anno_file annoFileExists inp w h
        blending_list dontocclude fuel = .noStyleToken) ∧
    (∀ (numObjects : Nat) (img_file anno_file : String) (inp : SynthInput)
      (w h : Int) (blending_list : List String) (dontocclude : Bool)
      (fuel : Nat) (entries : List AnnoEntry),
      containsTok img_file "none" = true →
      createLoop dontocclude w h numObjects inp fuel 0 0 = some entries →
      create_image_anno numObjects img_file anno_file false inp w h
        blending_list dontocclude fuel
        = .produced (blending_list.map fun b => img_file.replace "none" b)
            anno_file entries) := by
  constructor
  · intro numObjects img_file anno_file annoFileExists inp w h blending_list
      dontocclude fuel htok
    rw [create_image_anno, htok]
    rfl
  · intro numObjects img_file anno_file inp w h blending_list dontocclude fuel
      entries htok hloop
    rw [create_image_anno, htok]
    simp only [Bool.not_true, Bool.false_eq_true, if_neg Bool.false_ne_true,
      if_false, hloop]

/-- Witness for C9: `"1_motion.jpg"` (no `'none'`) returns the bare
`return`; `"1_none.jpg"` with the trivial environment produces one image
per requested style. -/
theorem create_image_anno_none_guard_witness :
    create_image_anno 0 "1_motion.jpg" "1.xml" false trivialInput WIDTH HEIGHT
      ["none", "motion"] false 1 = .noStyleToken ∧
    create_image_anno 0 "1_none.jpg" "1.xml" false trivialInput WIDTH HEIGHT
      ["none", "motion"] false 1
      = .produced ["1_none.jpg".replace "none" "none",
          "1_none.jpg".replace "none" "motion"] "1.xml" [] := by
  constructor
  · exact create_image_anno_none_guard.1 0 "1_motion.jpg" "1.xml" false
      trivialInput WIDTH HEIGHT ["none", "motion"] false 1 (by decide)
  · have h := create_image_anno_none_guard.2 0 "1_none.jpg" "1.xml"
      trivialInput WIDTH HEIGHT ["none", "motion"] false 1 [] (by decide) rfl
    simpa using h

/-- C10 (amended): a call of `create_image_anno` whose `img_file` contains
`'none'` and whose `anno_file` already exists returns `anno_file` without
performing any synthesis. -/
theorem create_image_anno_skips_existing :
    ∀ (numObjects : Nat) (img_file anno_file : String) (inp : SynthInput)
      (w h : Int) (blending_list : List String) (dontocclude : Bool)
      (fuel : Nat),
      containsTok img_file "none" = true →
      create_image_anno numObjects img_file anno_file true inp w h
        blending_list dontocclude fuel = .existingAnno anno_file := by
  intro numObjects img_file anno_file inp w h blending_list dontocclude fuel htok
  rw [create_image_anno, htok]
  rfl

/-- Witness for C10 (amended): the concrete `'none'` work item with an
existing annotation file returns that file unchanged. -/
theorem create_image_anno_skips_existing_witness :
    create_image_anno 0 "1_none.jpg" "1.xml" true trivialInput WIDTH HEIGHT
      ["none"] false 1 = .existingAnno "1.xml" :=
  create_image_anno_skips_existing 0 "1_none.jpg" "1.xml" trivialInput
    WIDTH HEIGHT ["none"] false 1 (by decide)

/-- Counterexample for C10 as stated: for a work item whose `img_file`
lacks `'none'`, the `'none'` guard fires first even when `anno_file`
exists, so the call returns the bare `return` (`None`), not `anno_file`. -/
theorem create_image_anno_existing_cex :
    create_image_anno 0 "1_motion.jpg" "1.xml" true trivialInput WIDTH HEIGHT
      ["motion"] false 1 ≠ .existingAnno "1.xml" := by
  decide

/-! ### Background crop selection (dataset_generator.py lines 365-394) -/

/-- Embedding of the crop-region selection for the background (lines
365-394): given the background size `(img_w, img_h)` and target canvas
`(w, h)`, returns `(x0, y0, new_w, new_h)` — the crop passed to
`background.crop((x0, y0, x0+new_w, y0+new_h))`.  The random draws are
oracles: `rs` is the size draw of the larger-background branch
(`np.random.randint(w, img_w + 1)` resp. `(h, img_h + 1)`), `rx`/`ry` the
`x0`/`y0` draws.  Note the source sets `target_aspect_r = img_w / img_h`
(line 369), the same value as `aspect_r` (line 366); `int()` truncation on
the positive quotients is `Int.floor`. -/
def background_crop (img_w img_h w h : Int) (rs rx ry : Int) :
    Int × Int × Int × Int :=
  let aspect_r : ℚ := (img_w : ℚ) / (img_h : ℚ)
  let target_aspect_r : ℚ := (img_w : ℚ) / (img_h : ℚ)
  if img_w ≤ w ∨ img_h ≤ h then
    if aspect_r < target_aspect_r then
      let new_h : Int := ⌊(img_w : ℚ) / target_aspect_r⌋
      (0, ry, img_w, new_h)
    else
      let new_w : Int := ⌊target_aspect_r * (img_h : ℚ)⌋
      (rx, 0, new_w, img_h)
  else
    if aspect_r < target_aspect_r then
      let new_w : Int := rs
      let new_h : Int := ⌊(new_w : ℚ) / aspect_r⌋
      (rx, ry, new_w, new_h)
    else
      let new_h : Int := rs
      let new_w : Int := ⌊(new_h : ℚ) * aspect_r⌋
      (rx, ry, new_w, new_h)

/-- C6: for a 100×50 background and the default 384×384 target canvas
(a background smaller than the target), the code crops the region
`(0, 0, 100, 50)` — the full background, with the background's own aspect
ratio 2 — instead of a region matching the target aspect ratio 1, because
line 369 sets `target_aspect_r` from the background instead of the target;
the comparison `aspect_r < target_aspect_r` compares a value with itself
and both branches that would honour the target aspect ratio are dead. -/
theorem background_crop_ignores_target_aspect :
    background_crop 100 50 WIDTH HEIGHT 0 0 0 = (0, 0, 100, 50) ∧
    ¬ ((100 : ℚ) / (50 : ℚ) = (WIDTH : ℚ) / (HEIGHT : ℚ)) := by
  refine ⟨?_, by norm_num [WIDTH, HEIGHT]⟩
  rw [background_crop]
  norm_num [WIDTH, HEIGHT]

end ObjDet
